import Mathlib

/-!
Verification development for the `pydisdrometer` DSD core
(`src/pydisdrometer/DropSizeDistribution.py`).

The Python class `DropSizeDistribution` is embedded as a Lean structure over
`ℝ`-valued lists; numpy element-wise operations become `List.zipWith`/`List.map`
translations; Python attributes that may hold `None` become `Option`s; the
external nonlinear optimizers (`scipy.optimize.curve_fit`, and the repository
module `expfit` that is not part of the sources under verification) are
abstracted, with the exact data handed to them recorded so that the
filter-then-fit behaviour of the source is fully visible.
-/

/-- State of a `DropSizeDistribution` object.  Mirrors the attributes assigned
in `__init__` (lines 20–36): the constructor arguments with Python default
`None` are `Option`s, and the four radar-parameter series are `Option`s as
well because the code later tests them against `None`
(`calc_rainfall_relationship`, line 187). -/
structure DropSizeDistribution where
  time : List ℝ
  Nd : List (List ℝ)
  spread : List ℝ
  rain_rate : Option (List ℝ)
  velocity : Option (List ℝ)
  Z : Option (List ℝ)
  num_particles : Option (List ℝ)
  bin_edges : Option (List ℝ)
  diameter : Option (List ℝ)
  Zh : Option (List ℝ)
  Zdr : Option (List ℝ)
  Kdp : Option (List ℝ)
  Ai : Option (List ℝ)

/-- `__init__` (lines 20–36).  It stores the nine arguments unchanged — the
source performs no validation of any kind on `bin_edges`, `diameter` or the
array shapes — and initializes `Zh`, `Zdr`, `Kdp`, `Ai` to zero arrays of
length `len(time)`.  In the Python signature the last six parameters default
to `None`. -/
def DropSizeDistribution.init (time : List ℝ) (Nd : List (List ℝ)) (spread : List ℝ)
    (rain_rate velocity Z num_particles bin_edges diameter : Option (List ℝ)) :
    DropSizeDistribution :=
  ⟨time, Nd, spread, rain_rate, velocity, Z, num_particles, bin_edges, diameter,
    some (List.replicate time.length 0), some (List.replicate time.length 0),
    some (List.replicate time.length 0), some (List.replicate time.length 0)⟩

/-- Element-wise product, the embedding of `np.multiply` on two equal-length
arrays. -/
noncomputable def npMultiply (xs ys : List ℝ) : List ℝ :=
  List.zipWith (fun a b => a * b) xs ys

/-- `mmultiply` (lines 224–228): starts from `np.ones(len(args[0]))` and
multiplies all argument arrays element-wise into it. -/
noncomputable def mmultiply (args : List (List ℝ)) : List ℝ :=
  args.foldl npMultiply (List.replicate (args.headD []).length 1)

/-- `calculate_RR` (lines 133–141).  `self.rain_rate` is reassigned to a fresh
array of length `len(self.time)` and every entry `t` is then assigned
`0.6 * π * 1e-3 * sum(mmultiply(velocity, Nd[t], spread, diameter ** 3))`
where `velocity = 9.65 - 10.3 * exp(-0.6 * diameter)` element-wise with its
entry `0` overwritten by `0.5`. -/
noncomputable def DropSizeDistribution.calculate_RR (dsd : DropSizeDistribution) :
    DropSizeDistribution :=
  let d := dsd.diameter.getD []
  { dsd with rain_rate := some ((List.range dsd.time.length).map (fun t =>
      let vel := (d.map (fun x => 9.65 - 10.3 * Real.exp (-0.6 * x))).set 0 0.5
      0.6 * Real.pi * 1e-3 *
        (mmultiply [vel, dsd.Nd.getD t [], dsd.spread, d.map (fun x => x ^ 3)]).sum)) }

/-- `getD` at an index below the length is the corresponding element. -/
theorem getD_of_lt {α : Type} (l : List α) (d : α) {i : ℕ} (h : i < l.length) :
    l.getD i d = l[i] := by
  simp [List.getD_eq_getElem?_getD, List.getElem?_eq_getElem h]

/-- The sum of a list of reals is the sum of its entries over `Finset.range`. -/
theorem list_sum_eq_range (l : List ℝ) :
    l.sum = ∑ i ∈ Finset.range l.length, l.getD i 0 := by
  induction l with
  | nil => simp
  | cons x xs ih =>
      simp only [List.sum_cons, List.length_cons, Finset.sum_range_succ',
        List.getD_cons_succ, List.getD_cons_zero, ih]
      exact add_comm _ _

theorem mmultiply_four_length (a b c e : List ℝ) (B : ℕ)
    (ha : a.length = B) (hb : b.length = B) (hc : c.length = B) (he : e.length = B) :
    (mmultiply [a, b, c, e]).length = B := by
  simp [mmultiply, npMultiply, ha, hb, hc, he]

theorem mmultiply_four_getD (a b c e : List ℝ) (B : ℕ)
    (ha : a.length = B) (hb : b.length = B) (hc : c.length = B) (he : e.length = B)
    {i : ℕ} (hi : i < B) :
    (mmultiply [a, b, c, e]).getD i 0 =
      a.getD i 0 * b.getD i 0 * c.getD i 0 * e.getD i 0 := by
  have hlen : (mmultiply [a, b, c, e]).length = B := mmultiply_four_length a b c e B ha hb hc he
  rw [getD_of_lt _ _ (hlen ▸ hi), getD_of_lt _ _ (ha ▸ hi), getD_of_lt _ _ (hb ▸ hi),
    getD_of_lt _ _ (hc ▸ hi), getD_of_lt _ _ (he ▸ hi)]
  simp only [mmultiply, npMultiply, List.foldl, List.headD]
  simp only [List.getElem_zipWith, List.getElem_replicate]
  ring

/-- The summed four-way `mmultiply` of `calculate_RR` is the per-bin sum of
products. -/
theorem mmultiply_four_sum (a b c e : List ℝ) (B : ℕ)
    (ha : a.length = B) (hb : b.length = B) (hc : c.length = B) (he : e.length = B) :
    (mmultiply [a, b, c, e]).sum =
      ∑ i ∈ Finset.range B, a.getD i 0 * b.getD i 0 * c.getD i 0 * e.getD i 0 := by
  rw [list_sum_eq_range, mmultiply_four_length a b c e B ha hb hc he]
  refine Finset.sum_congr rfl (fun i hi => ?_)
  exact mmultiply_four_getD a b c e B ha hb hc he (Finset.mem_range.mp hi)

/-- Entry formula for the rain-rate series produced by `calculate_RR`. -/
theorem DropSizeDistribution.calculate_RR_getD (dsd : DropSizeDistribution)
    (d : List ℝ) (B : ℕ) (hd : dsd.diameter = some d) (hdB : d.length = B)
    (hsB : dsd.spread.length = B) {t : ℕ} (ht : t < dsd.time.length)
    (hrow : (dsd.Nd.getD t []).length = B) :
    ((dsd.calculate_RR).rain_rate.getD []).getD t 0 =
      0.6 * Real.pi * 1e-3 * ∑ i ∈ Finset.range B,
        (if i = 0 then 0.5 else 9.65 - 10.3 * Real.exp (-0.6 * d.getD i 0)) *
          (dsd.Nd.getD t []).getD i 0 * dsd.spread.getD i 0 * d.getD i 0 ^ 3 := by
  have hvel_len : ((d.map (fun x => 9.65 - 10.3 * Real.exp (-0.6 * x))).set 0 0.5).length = B := by
    simp [hdB]
  have hcube_len : (d.map (fun x => x ^ 3)).length = B := by simp [hdB]
  have hmap_len : ((List.range dsd.time.length).map (fun t =>
      let vel := (d.map (fun x => 9.65 - 10.3 * Real.exp (-0.6 * x))).set 0 0.5
      0.6 * Real.pi * 1e-3 *
        (mmultiply [vel, dsd.Nd.getD t [], dsd.spread, d.map (fun x => x ^ 3)]).sum)).length =
      dsd.time.length := by simp
  unfold DropSizeDistribution.calculate_RR
  simp only [hd, Option.getD_some]
  rw [getD_of_lt _ _ (by simpa using ht)]
  rw [List.getElem_map, List.getElem_range]
  rw [mmultiply_four_sum _ _ _ _ B hvel_len hrow hsB hcube_len]
  congr 1
  refine Finset.sum_congr rfl (fun i hi => ?_)
  have hiB : i < B := Finset.mem_range.mp hi
  have h1 : ((d.map (fun x => 9.65 - 10.3 * Real.exp (-0.6 * x))).set 0 0.5).getD i 0 =
      if i = 0 then 0.5 else 9.65 - 10.3 * Real.exp (-0.6 * d.getD i 0) := by
    rw [getD_of_lt _ _ (hvel_len ▸ hiB)]
    rw [List.getElem_set]
    by_cases h0 : i = 0
    · simp [h0]
    · simp only [if_neg (Ne.symm h0), if_neg h0, List.getElem_map]
      rw [getD_of_lt _ _ (hdB ▸ hiB)]
  have h2 : (d.map (fun x => x ^ 3)).getD i 0 = d.getD i 0 ^ 3 := by
    rw [getD_of_lt _ _ (hcube_len ▸ hiB), List.getElem_map, getD_of_lt _ _ (hdB ▸ hiB)]
  rw [h1, h2]

/-- C1: For every DSD, `calculate_RR` sets `rain_rate` to a length-T series
with `rain_rate[t] = 0.6 * π * 1e-3 * Σ_i v(diameter[i]) * Nd[t,i] * spread[i]
* diameter[i]^3`, where `v(D) = 9.65 - 10.3 * exp(-0.6*D)` for every bin
except the smallest (bin 0 of the ordered diameter list), whose velocity is
fixed at `0.5`; and this replaces any externally supplied `rain_rate`. -/
theorem calculate_RR_matches_formula (dsd : DropSizeDistribution)
    (d : List ℝ) (B : ℕ) (hd : dsd.diameter = some d) (hdB : d.length = B)
    (hsB : dsd.spread.length = B)
    (hrows : ∀ t, t < dsd.time.length → (dsd.Nd.getD t []).length = B) :
    ∃ rr : List ℝ, (dsd.calculate_RR).rain_rate = some rr ∧
      rr.length = dsd.time.length ∧
      (∀ t, t < dsd.time.length → rr.getD t 0 =
        0.6 * Real.pi * 1e-3 * ∑ i ∈ Finset.range B,
          (if i = 0 then 0.5 else 9.65 - 10.3 * Real.exp (-0.6 * d.getD i 0)) *
            (dsd.Nd.getD t []).getD i 0 * dsd.spread.getD i 0 * d.getD i 0 ^ 3) ∧
      (∀ r : Option (List ℝ),
        ({ dsd with rain_rate := r } : DropSizeDistribution).calculate_RR.rain_rate =
          (dsd.calculate_RR).rain_rate) := by
  refine ⟨((dsd.calculate_RR).rain_rate.getD []), ?_, ?_, ?_, ?_⟩
  · simp [DropSizeDistribution.calculate_RR]
  · simp [DropSizeDistribution.calculate_RR]
  · intro t ht
    exact dsd.calculate_RR_getD d B hd hdB hsB ht (hrows t ht)
  · intro r
    rfl

/-- Concrete one-timestep, one-bin DSD used to instantiate C1. -/
noncomputable def dsdC1 : DropSizeDistribution :=
  DropSizeDistribution.init [0] [[0]] [1] none none none none (some [0.5, 1.5]) (some [1])

theorem calculate_RR_matches_formula_witness :
    dsdC1.diameter = some [1] ∧ ([1] : List ℝ).length = 1 ∧ dsdC1.spread.length = 1 ∧
      (∀ t, t < dsdC1.time.length → (dsdC1.Nd.getD t []).length = 1) ∧
      (∃ rr : List ℝ, (dsdC1.calculate_RR).rain_rate = some rr ∧
        rr.length = dsdC1.time.length ∧
        (∀ t, t < dsdC1.time.length → rr.getD t 0 =
          0.6 * Real.pi * 1e-3 * ∑ i ∈ Finset.range 1,
            (if i = 0 then 0.5 else
              9.65 - 10.3 * Real.exp (-0.6 * ([1] : List ℝ).getD i 0)) *
              (dsdC1.Nd.getD t []).getD i 0 * dsdC1.spread.getD i 0 *
              ([1] : List ℝ).getD i 0 ^ 3) ∧
        (∀ r : Option (List ℝ),
          ({ dsdC1 with rain_rate := r } : DropSizeDistribution).calculate_RR.rain_rate =
            (dsdC1.calculate_RR).rain_rate)) :=
  ⟨rfl, rfl, rfl, by simp [dsdC1, DropSizeDistribution.init, Nat.lt_one_iff],
    calculate_RR_matches_formula dsdC1 [1] 1 rfl rfl rfl
      (by simp [dsdC1, DropSizeDistribution.init, Nat.lt_one_iff])⟩

/-- One-timestep DSD with two very small diameter bins (0.05 mm and 0.1 mm)
and one drop per unit volume in the second bin. -/
noncomputable def dsdC9a : DropSizeDistribution :=
  DropSizeDistribution.init [0] [[0, 1]] [0.05, 0.05] none none none none
    (some [0.025, 0.075, 0.125]) (some [0.05, 0.1])

/-- The same DSD with the concentration of the second bin raised to 2. -/
noncomputable def dsdC9b : DropSizeDistribution :=
  DropSizeDistribution.init [0] [[0, 2]] [0.05, 0.05] none none none none
    (some [0.025, 0.075, 0.125]) (some [0.05, 0.1])

/-- C9 counterexample: raising `Nd[0,1]` from 1 to 2 (bin 1 is not the
special-cased smallest bin) strictly *decreases* the rain rate computed by
`calculate_RR`, because `v(0.1) = 9.65 - 10.3 * exp(-0.06) < 0`.  So the rain
rate is not monotonically non-decreasing in a non-smallest bin concentration
for every DSD. -/
theorem rain_rate_not_monotone :
    ((dsdC9b.calculate_RR).rain_rate.getD []).getD 0 0 <
      ((dsdC9a.calculate_RR).rain_rate.getD []).getD 0 0 := by
  have ha := dsdC9a.calculate_RR_getD [0.05, 0.1] 2 rfl rfl rfl
    (t := 0) (by simp [dsdC9a, DropSizeDistribution.init]) rfl
  have hb := dsdC9b.calculate_RR_getD [0.05, 0.1] 2 rfl rfl rfl
    (t := 0) (by simp [dsdC9b, DropSizeDistribution.init]) rfl
  rw [ha, hb]
  have hv : 9.65 - 10.3 * Real.exp (-0.6 * 0.1) < 0 := by
    have h6 : (-0.6 : ℝ) * 0.1 = -0.06 := by norm_num
    have h := Real.add_one_le_exp (-0.06 : ℝ)
    rw [h6]
    nlinarith
  norm_num [Finset.sum_range_succ, Finset.sum_range_zero, dsdC9a, dsdC9b,
    DropSizeDistribution.init, List.getD_cons_zero, List.getD_cons_succ]
  nlinarith [mul_neg_of_pos_of_neg Real.pi_pos hv]

/-- C9 amended: the rain rate produced by `calculate_RR` at timestep `t` is
monotonically non-decreasing in the concentration `Nd[t,i]` of a bin `i` that
is not the special-cased smallest bin, *provided* the fixed per-bin coefficient
`(9.65 - 10.3 * exp(-0.6 * diameter[i])) * spread[i] * diameter[i]^3` is
non-negative (for positive spread and diameter this means
`diameter[i] ≳ 0.109 mm`; the counterexample shows the unconditional claim
fails below that threshold). -/
theorem rain_rate_monotone_nonneg_coeff (dsd : DropSizeDistribution)
    (d : List ℝ) (B t i : ℕ) (x2 : ℝ)
    (hd : dsd.diameter = some d) (hdB : d.length = B) (hsB : dsd.spread.length = B)
    (ht : t < dsd.time.length) (htN : t < dsd.Nd.length)
    (hrow : (dsd.Nd.getD t []).length = B)
    (hi : i < B) (hi0 : i ≠ 0)
    (hx : (dsd.Nd.getD t []).getD i 0 ≤ x2)
    (hcoef : 0 ≤ (9.65 - 10.3 * Real.exp (-0.6 * d.getD i 0)) *
      dsd.spread.getD i 0 * d.getD i 0 ^ 3) :
    ((dsd.calculate_RR).rain_rate.getD []).getD t 0 ≤
      ((({ dsd with Nd := dsd.Nd.set t ((dsd.Nd.getD t []).set i x2)
        } : DropSizeDistribution).calculate_RR).rain_rate.getD []).getD t 0 := by
  set dsd' : DropSizeDistribution :=
    { dsd with Nd := dsd.Nd.set t ((dsd.Nd.getD t []).set i x2) } with hdsd'
  have htN' : t < (dsd.Nd.set t ((dsd.Nd.getD t []).set i x2)).length := by
    rw [List.length_set]; exact htN
  have hrow' : dsd'.Nd.getD t [] = (dsd.Nd.getD t []).set i x2 := by
    rw [hdsd']
    rw [getD_of_lt _ _ htN']
    exact List.getElem_set_self _
  have h1 := dsd.calculate_RR_getD d B hd hdB hsB ht hrow
  have h2 := dsd'.calculate_RR_getD d B hd hdB hsB ht
    (by rw [hrow', List.length_set]; exact hrow)
  rw [h1, h2]
  have hC : (0:ℝ) ≤ 0.6 * Real.pi * 1e-3 := by positivity
  refine mul_le_mul_of_nonneg_left (Finset.sum_le_sum (fun j hj => ?_)) hC
  have hjB : j < B := Finset.mem_range.mp hj
  by_cases hji : j = i
  · subst hji
    have hnew : ((dsd.Nd.getD t []).set j x2).getD j 0 = x2 := by
      have hjl : j < ((dsd.Nd.getD t []).set j x2).length := by
        rw [List.length_set, hrow]; exact hjB
      rw [getD_of_lt _ _ hjl]
      exact List.getElem_set_self _
    rw [hrow', hnew, if_neg hi0]
    have h := mul_le_mul_of_nonneg_left hx hcoef
    nlinarith [h]
  · have hsame : ((dsd.Nd.getD t []).set i x2).getD j 0 = (dsd.Nd.getD t []).getD j 0 := by
      by_cases hjlen : j < (dsd.Nd.getD t []).length
      · have hjl2 : j < ((dsd.Nd.getD t []).set i x2).length := by
          rw [List.length_set]; exact hjlen
        rw [getD_of_lt _ _ hjl2, getD_of_lt _ _ hjlen]
        rw [List.getElem_set]
        exact if_neg (fun h => hji h.symm)
      · have hj1 : ((dsd.Nd.getD t []).set i x2).length ≤ j := by
          rw [List.length_set]; exact Nat.le_of_not_lt hjlen
        rw [List.getD_eq_default _ _ hj1, List.getD_eq_default _ _ (Nat.le_of_not_lt hjlen)]
    rw [hrow', hsame]

/-- Concrete DSD instantiating the amended monotonicity statement. -/
noncomputable def dsdC9w : DropSizeDistribution :=
  DropSizeDistribution.init [0] [[5, 7]] [1, 0] none none none none
    (some [0.5, 1.5, 2.5]) (some [1, 2])

theorem rain_rate_monotone_nonneg_coeff_witness :
    dsdC9w.diameter = some [1, 2] ∧ ([1, 2] : List ℝ).length = 2 ∧
      dsdC9w.spread.length = 2 ∧ 0 < dsdC9w.time.length ∧ 0 < dsdC9w.Nd.length ∧
      (dsdC9w.Nd.getD 0 []).length = 2 ∧ 1 < 2 ∧ (1 : ℕ) ≠ 0 ∧
      (dsdC9w.Nd.getD 0 []).getD 1 0 ≤ 7 ∧
      (0 ≤ (9.65 - 10.3 * Real.exp (-0.6 * ([1, 2] : List ℝ).getD 1 0)) *
        dsdC9w.spread.getD 1 0 * ([1, 2] : List ℝ).getD 1 0 ^ 3) ∧
      ((dsdC9w.calculate_RR).rain_rate.getD []).getD 0 0 ≤
        ((({ dsdC9w with Nd := dsdC9w.Nd.set 0 ((dsdC9w.Nd.getD 0 []).set 1 7)
          } : DropSizeDistribution).calculate_RR).rain_rate.getD []).getD 0 0 :=
  ⟨rfl, rfl, rfl, by decide, by decide, rfl, by decide, by decide,
    by simp [dsdC9w, DropSizeDistribution.init],
    by simp [dsdC9w, DropSizeDistribution.init],
    rain_rate_monotone_nonneg_coeff dsdC9w [1, 2] 2 0 1 7 rfl rfl rfl
      (by decide) (by decide) rfl (by decide) (by decide)
      (by simp [dsdC9w, DropSizeDistribution.init])
      (by simp [dsdC9w, DropSizeDistribution.init])⟩

/-- C7 counterexample: a `DropSizeDistribution` constructed with
`bin_edges = [2, 1, 0, 5]` — not strictly increasing, and of length 4 although
there are only 2 diameter bins — is accepted silently (`__init__` contains no
validation), and `calculate_RR` then runs to completion on it, producing the
rain-rate series `[0]` instead of any error being raised before computation.
So invalid bin geometry is not a fatal configuration error raised before
computation starts. -/
theorem invalid_geometry_accepted :
    ((DropSizeDistribution.init [0] [[0, 0]] [1, 1] none none none none
        (some [2, 1, 0, 5]) (some [0.05, 0.1])).calculate_RR).rain_rate =
      some [0] := by
  norm_num [DropSizeDistribution.init, DropSizeDistribution.calculate_RR,
    mmultiply, npMultiply, List.range_succ, List.replicate, List.foldl]

/-- C7 amended: `__init__` performs no bin-geometry validation — for every
argument tuple the object is created holding the fields exactly as given
(construction itself never fails, since the constructor only assigns
attributes).  Moreover, on bin arrays of coherent lengths — a present,
non-empty `diameter` matching `spread` and every `Nd` row, which is where the
element-wise numpy arithmetic of the source is defined — computation proceeds
regardless of `bin_edges`: `calculate_RR` completes with a rain-rate series
of length `len(time)` even when `bin_edges` is not strictly increasing or has
a length unrelated to the number of bins (it is never read there), instead of
any error being raised before computation starts. -/
theorem init_performs_no_validation (time : List ℝ) (Nd : List (List ℝ))
    (spread : List ℝ)
    (rain_rate velocity Z num_particles bin_edges diameter : Option (List ℝ)) :
    (DropSizeDistribution.init time Nd spread rain_rate velocity Z num_particles
        bin_edges diameter).bin_edges = bin_edges ∧
      (DropSizeDistribution.init time Nd spread rain_rate velocity Z num_particles
        bin_edges diameter).diameter = diameter ∧
      (DropSizeDistribution.init time Nd spread rain_rate velocity Z num_particles
        bin_edges diameter).spread = spread ∧
      (∀ (d : List ℝ) (B : ℕ), diameter = some d → d.length = B → 0 < B →
        spread.length = B → (∀ t, t < time.length → (Nd.getD t []).length = B) →
        ∃ rr : List ℝ,
          ((DropSizeDistribution.init time Nd spread rain_rate velocity Z
              num_particles bin_edges diameter).calculate_RR).rain_rate = some rr ∧
            rr.length = time.length) := by
  refine ⟨rfl, rfl, rfl, fun d B _hd _hdB _hB _hs _hrows => ?_⟩
  refine ⟨_, rfl, ?_⟩
  simp [DropSizeDistribution.calculate_RR, DropSizeDistribution.init]

theorem init_performs_no_validation_witness :
    (some [0.05, 0.1] : Option (List ℝ)) = some [0.05, 0.1] ∧
      ([0.05, 0.1] : List ℝ).length = 2 ∧ (0 : ℕ) < 2 ∧
      ([1, 1] : List ℝ).length = 2 ∧
      (∀ t, t < ([0] : List ℝ).length →
        (([[0, 0]] : List (List ℝ)).getD t []).length = 2) ∧
      (∃ rr : List ℝ,
        ((DropSizeDistribution.init [0] [[0, 0]] [1, 1] none none none none
            (some [2, 1, 0, 5]) (some [0.05, 0.1])).calculate_RR).rain_rate =
          some rr ∧ rr.length = ([0] : List ℝ).length) :=
  ⟨rfl, rfl, by decide, rfl, by simp [Nat.lt_one_iff],
    (init_performs_no_validation [0] [[0, 0]] [1, 1] none none none none
        (some [2, 1, 0, 5]) (some [0.05, 0.1])).2.2.2 [0.05, 0.1] 2 rfl rfl
      (by decide) rfl (by simp [Nat.lt_one_iff])⟩

/-- Python exception kinds relevant to the embedded methods. -/
inductive PyError where
  | attributeError

/-- `_calc_mth_moment` (lines 79–92).  The method first builds `bin_width`
from `bin_edges`, then evaluates `np.zeros(len(np.time))`: the numpy module
has no attribute `time`, so an `AttributeError` is raised there on every call
and nothing else ever executes.  (Even with `np.time` read as `self.time`,
the loop body would assign `np.multiply(np.multiply(dmth, self.Nd), bin_width)`
— the un-summed element-wise product over the whole `Nd` matrix — to the
scalar slot `mth_moment[t]`.) -/
noncomputable def DropSizeDistribution.calc_mth_moment
    (dsd : DropSizeDistribution) (m : ℝ) : Except PyError (List ℝ) :=
  let bin_edges := dsd.bin_edges.getD []
  let _bin_width := (List.range (bin_edges.length - 1)).map
    (fun i => bin_edges.getD (i + 1) 0 - bin_edges.getD i 0)
  Except.error PyError.attributeError

/-- The moment contract stated by the spec (§4.3), for comparison with the
embedded `calc_mth_moment`: `moment(t) = Σ_i diameter[i]^m * Nd[t,i] *
spread[i]` for each of the `len(time)` timesteps. -/
noncomputable def momentSpec (dsd : DropSizeDistribution) (m : ℝ) : List ℝ :=
  (List.range dsd.time.length).map (fun t =>
    ∑ i ∈ Finset.range (dsd.diameter.getD []).length,
      (dsd.diameter.getD []).getD i 0 ^ m * (dsd.Nd.getD t []).getD i 0 *
        dsd.spread.getD i 0)

/-- One-timestep, one-bin DSD on which the moment bug is exhibited. -/
noncomputable def dsdC2 : DropSizeDistribution :=
  DropSizeDistribution.init [0] [[1]] [1] none none none none
    (some [0.5, 1.5]) (some [1])

/-- C2 (code bug): the moment operation never returns the contracted length-T
sequence — for every DSD and every exponent `m` it raises `AttributeError`
(`np.time` does not exist), while the specified moment on the concrete DSD
`dsdC2` with `m = 0` is the well-defined series `[1]` (the dot product of the
concentration row and the bin widths). -/
theorem calc_mth_moment_raises :
    (∀ (dsd : DropSizeDistribution) (m : ℝ),
      dsd.calc_mth_moment m = Except.error PyError.attributeError) ∧
      momentSpec dsdC2 0 = [1] := by
  refine ⟨fun _dsd _m => rfl, ?_⟩
  simp [momentSpec, dsdC2, DropSizeDistribution.init, List.range_succ]

/-- Boolean mask `c < xs` element-wise, the embedding of a numpy comparison
such as `self.Kdp > 0`. -/
noncomputable def npGt (xs : List ℝ) (c : ℝ) : List Bool :=
  xs.map (fun x => decide (c < x))

/-- `np.logical_and` of two boolean masks. -/
def npLogicalAnd (xs ys : List Bool) : List Bool :=
  List.zipWith (fun a b => a && b) xs ys

/-- numpy boolean-mask indexing `arr[mask]`: the elements of `xs` at the
positions where `mask` holds. -/
def boolMask (mask : List Bool) (xs : List ℝ) : List ℝ :=
  ((mask.zip xs).filter (fun p => p.1)).map (fun p => p.2)

/-- Precondition failure reported by the regression routine. -/
inductive FitError where
  | emptyData

/-- Modelled from the spec: the repository module `expfit` (imported on line 8
of the source but missing from the sources under verification) performs the
bivariate nonlinear least-squares power-law fit `R = a * X^b` of §4.5a, and
per §8 a fit over an empty (all-filtered) data set reports a precondition
failure rather than crashing.  The numerical optimizer itself is an external
collaborator, abstracted as `oracle`; `expfit` records the exact data handed
to it. -/
def expfit {R : Type} (oracle : List ℝ → List ℝ → R) (x y : List ℝ) :
    Except FitError R :=
  if x.isEmpty then Except.error FitError.emptyData else Except.ok (oracle x y)

/-- `calc_R_kdp_relationship` (lines 143–156): builds the positivity filter
`np.logical_and(self.Kdp > 0, self.rain_rate > 0)` and hands `Kdp[filt]` and
`rain_rate[filt]` to `expfit`. -/
noncomputable def DropSizeDistribution.calc_R_kdp_relationship {R : Type}
    (oracle : List ℝ → List ℝ → R) (dsd : DropSizeDistribution) :
    Except FitError R :=
  let kdp := dsd.Kdp.getD []
  let rr := dsd.rain_rate.getD []
  let filt := npLogicalAnd (npGt kdp 0) (npGt rr 0)
  expfit oracle (boolMask filt kdp) (boolMask filt rr)

/-- `calc_R_Zh_relationship` (lines 158–168): hands
`np.power(10, 0.1 * self.Zh[self.rain_rate > 0])` and
`self.rain_rate[self.rain_rate > 0]` to `expfit`. -/
noncomputable def DropSizeDistribution.calc_R_Zh_relationship {R : Type}
    (oracle : List ℝ → List ℝ → R) (dsd : DropSizeDistribution) :
    Except FitError R :=
  let zh := dsd.Zh.getD []
  let rr := dsd.rain_rate.getD []
  let filt := npGt rr 0
  expfit oracle ((boolMask filt zh).map (fun z => (10 : ℝ) ^ (0.1 * z)))
    (boolMask filt rr)

/-- Mask indexing in terms of index sets: `xs[mask]` is `xs` sampled at the
indices below `xs.length` at which `mask` holds. -/
theorem boolMask_eq_range_filter (mask : List Bool) (xs : List ℝ)
    (h : mask.length = xs.length) :
    boolMask mask xs =
      ((List.range xs.length).filter (fun t => mask.getD t false)).map
        (fun t => xs.getD t 0) := by
  induction mask generalizing xs with
  | nil =>
      cases xs with
      | nil => rfl
      | cons x xs => simp at h
  | cons b bs ih =>
      cases xs with
      | nil => simp at h
      | cons x xs =>
          have h' : bs.length = xs.length := by simpa using h
          have hL : boolMask (b :: bs) (x :: xs) =
              (if b then [x] else []) ++ boolMask bs xs := by
            simp only [boolMask, List.zip_cons_cons, List.filter_cons]
            cases b <;> simp
          have hR : (List.range (x :: xs).length).filter
                (fun t => (b :: bs).getD t false) =
              (if b then [0] else []) ++
                ((List.range xs.length).filter
                  (fun t => bs.getD t false)).map Nat.succ := by
            rw [List.length_cons, List.range_succ_eq_map, List.filter_cons]
            have hcomp : ((fun t => (b :: bs).getD t false) ∘ Nat.succ) =
                (fun t => bs.getD t false) := by
              funext t
              simp [List.getD_cons_succ]
            rw [List.filter_map, hcomp]
            simp only [List.getD_cons_zero]
            cases b <;> simp
          rw [hL, hR, List.map_append, List.map_map, ih xs h']
          have hcomp2 : ((fun t => (x :: xs : List ℝ).getD t 0) ∘ Nat.succ) =
              (fun t => xs.getD t 0) := by
            funext t
            simp [List.getD_cons_succ]
          rw [hcomp2]
          cases b <;> simp

theorem npGt_length (xs : List ℝ) (c : ℝ) : (npGt xs c).length = xs.length := by
  simp [npGt]

theorem npGt_getD (xs : List ℝ) (c : ℝ) {t : ℕ} (ht : t < xs.length) :
    (npGt xs c).getD t false = decide (c < xs.getD t 0) := by
  rw [getD_of_lt _ _ (by simpa [npGt] using ht), getD_of_lt _ _ ht]
  simp [npGt]

/-- Entry of the conjunction filter of `calc_R_kdp_relationship` and
`calc_rainfall_relationship`. -/
theorem filt_getD (kdp rr : List ℝ) {t : ℕ} (hk : t < kdp.length)
    (hr : t < rr.length) :
    (npLogicalAnd (npGt kdp 0) (npGt rr 0)).getD t false =
      decide (0 < kdp.getD t 0 ∧ 0 < rr.getD t 0) := by
  have hlen : t < (npLogicalAnd (npGt kdp 0) (npGt rr 0)).length := by
    simp only [npLogicalAnd, List.length_zipWith, npGt_length, lt_min_iff]
    exact ⟨hk, hr⟩
  rw [getD_of_lt _ _ hlen]
  simp only [npLogicalAnd, List.getElem_zipWith]
  have hdec : decide (0 < kdp.getD t 0 ∧ 0 < rr.getD t 0) =
      (decide (0 < kdp.getD t 0) && decide (0 < rr.getD t 0)) := by
    by_cases h1 : 0 < kdp.getD t 0 <;> by_cases h2 : 0 < rr.getD t 0 <;> simp [h1, h2]
  rw [hdec]
  congr 1
  · rw [← npGt_getD kdp 0 hk, getD_of_lt _ _ (by simpa [npGt_length] using hk)]
  · rw [← npGt_getD rr 0 hr, getD_of_lt _ _ (by simpa [npGt_length] using hr)]

theorem filt_length (kdp rr : List ℝ) (h : kdp.length = rr.length) :
    (npLogicalAnd (npGt kdp 0) (npGt rr 0)).length = rr.length := by
  simp [npLogicalAnd, npGt_length, h]

/-- `calc_R_kdp_relationship` hands `expfit` exactly the values of `Kdp` and
`rain_rate` at the indices `t` with `Kdp[t] > 0` and `rain_rate[t] > 0`. -/
theorem calc_R_kdp_char {R : Type} (oracle : List ℝ → List ℝ → R)
    (dsd : DropSizeDistribution) (kdp rr : List ℝ)
    (hk : dsd.Kdp = some kdp) (hr : dsd.rain_rate = some rr)
    (hkT : kdp.length = rr.length) :
    dsd.calc_R_kdp_relationship oracle =
      expfit oracle
        (((List.range rr.length).filter
            (fun t => decide (0 < kdp.getD t 0 ∧ 0 < rr.getD t 0))).map
          (fun t => kdp.getD t 0))
        (((List.range rr.length).filter
            (fun t => decide (0 < kdp.getD t 0 ∧ 0 < rr.getD t 0))).map
          (fun t => rr.getD t 0)) := by
  unfold DropSizeDistribution.calc_R_kdp_relationship
  simp only [hk, hr, Option.getD_some]
  have hflen : (npLogicalAnd (npGt kdp 0) (npGt rr 0)).length = rr.length :=
    filt_length kdp rr hkT
  rw [boolMask_eq_range_filter _ kdp (by rw [hflen, hkT]),
    boolMask_eq_range_filter _ rr (by rw [hflen]), hkT]
  have hfilter : (List.range rr.length).filter
        (fun t => (npLogicalAnd (npGt kdp 0) (npGt rr 0)).getD t false) =
      (List.range rr.length).filter
        (fun t => decide (0 < kdp.getD t 0 ∧ 0 < rr.getD t 0)) := by
    apply List.filter_congr
    intro t htm
    have htr : t < rr.length := List.mem_range.mp htm
    exact filt_getD kdp rr (by rw [hkT]; exact htr) htr
  rw [hfilter]

/-- `calc_R_Zh_relationship` hands `expfit` exactly `10^(0.1*Zh[t])` and
`rain_rate[t]` at the indices `t` with `rain_rate[t] > 0`. -/
theorem calc_R_Zh_char {R : Type} (oracle : List ℝ → List ℝ → R)
    (dsd : DropSizeDistribution) (zh rr : List ℝ)
    (hz : dsd.Zh = some zh) (hr : dsd.rain_rate = some rr)
    (hzT : zh.length = rr.length) :
    dsd.calc_R_Zh_relationship oracle =
      expfit oracle
        (((List.range rr.length).filter (fun t => decide (0 < rr.getD t 0))).map
          (fun t => (10 : ℝ) ^ (0.1 * zh.getD t 0)))
        (((List.range rr.length).filter (fun t => decide (0 < rr.getD t 0))).map
          (fun t => rr.getD t 0)) := by
  unfold DropSizeDistribution.calc_R_Zh_relationship
  simp only [hz, hr, Option.getD_some]
  rw [boolMask_eq_range_filter (npGt rr 0) zh (by rw [npGt_length, hzT]),
    boolMask_eq_range_filter (npGt rr 0) rr (by rw [npGt_length]), hzT, List.map_map]
  have hfilter : (List.range rr.length).filter (fun t => (npGt rr 0).getD t false) =
      (List.range rr.length).filter (fun t => decide (0 < rr.getD t 0)) := by
    apply List.filter_congr
    intro t htm
    exact npGt_getD rr 0 (List.mem_range.mp htm)
  rw [hfilter]
  rfl

/-- C5: `calc_R_kdp_relationship` fits only over the timesteps `t` with
`Kdp[t] > 0` and `rain_rate[t] > 0` (every index with `Kdp ≤ 0` or
`rain_rate ≤ 0` is excluded: the data handed to the fit routine are exactly
the series values at `{t < T : Kdp[t] > 0 ∧ rain_rate[t] > 0}`), while
`calc_R_Zh_relationship` fits only over the timesteps with `rain_rate[t] > 0`,
using `X = 10^(0.1*Zh)` as the independent variable. -/
theorem fit_positivity_filters {R : Type} (oracle : List ℝ → List ℝ → R)
    (dsd : DropSizeDistribution) (kdp zh rr : List ℝ)
    (hk : dsd.Kdp = some kdp) (hz : dsd.Zh = some zh)
    (hr : dsd.rain_rate = some rr)
    (hkT : kdp.length = rr.length) (hzT : zh.length = rr.length) :
    dsd.calc_R_kdp_relationship oracle =
      expfit oracle
        (((List.range rr.length).filter
            (fun t => decide (0 < kdp.getD t 0 ∧ 0 < rr.getD t 0))).map
          (fun t => kdp.getD t 0))
        (((List.range rr.length).filter
            (fun t => decide (0 < kdp.getD t 0 ∧ 0 < rr.getD t 0))).map
          (fun t => rr.getD t 0)) ∧
    dsd.calc_R_Zh_relationship oracle =
      expfit oracle
        (((List.range rr.length).filter (fun t => decide (0 < rr.getD t 0))).map
          (fun t => (10 : ℝ) ^ (0.1 * zh.getD t 0)))
        (((List.range rr.length).filter (fun t => decide (0 < rr.getD t 0))).map
          (fun t => rr.getD t 0)) :=
  ⟨calc_R_kdp_char oracle dsd kdp rr hk hr hkT,
    calc_R_Zh_char oracle dsd zh rr hz hr hzT⟩

/-- Concrete DSD instantiating the positivity-filter characterization. -/
noncomputable def dsdC5 : DropSizeDistribution :=
  DropSizeDistribution.init [0] [[1]] [1] (some [2]) none none none
    (some [0.5, 1.5]) (some [1])

theorem fit_positivity_filters_witness :
    dsdC5.Kdp = some [0] ∧ dsdC5.Zh = some [0] ∧ dsdC5.rain_rate = some [2] ∧
      ([0] : List ℝ).length = ([2] : List ℝ).length ∧
      ([0] : List ℝ).length = ([2] : List ℝ).length ∧
      (dsdC5.calc_R_kdp_relationship (fun x _ => x.length) =
          expfit (fun x _ => x.length)
            (((List.range ([2] : List ℝ).length).filter
                (fun t => decide (0 < ([0] : List ℝ).getD t 0 ∧
                  0 < ([2] : List ℝ).getD t 0))).map
              (fun t => ([0] : List ℝ).getD t 0))
            (((List.range ([2] : List ℝ).length).filter
                (fun t => decide (0 < ([0] : List ℝ).getD t 0 ∧
                  0 < ([2] : List ℝ).getD t 0))).map
              (fun t => ([2] : List ℝ).getD t 0)) ∧
        dsdC5.calc_R_Zh_relationship (fun x _ => x.length) =
          expfit (fun x _ => x.length)
            (((List.range ([2] : List ℝ).length).filter
                (fun t => decide (0 < ([2] : List ℝ).getD t 0))).map
              (fun t => (10 : ℝ) ^ (0.1 * ([0] : List ℝ).getD t 0)))
            (((List.range ([2] : List ℝ).length).filter
                (fun t => decide (0 < ([2] : List ℝ).getD t 0))).map
              (fun t => ([2] : List ℝ).getD t 0))) :=
  ⟨rfl, rfl, rfl, rfl, rfl,
    fit_positivity_filters (fun x _ => x.length) dsdC5 [0] [0] [2] rfl rfl rfl rfl rfl⟩

/-- C6: for every DSD whose positivity filter selects no timestep,
`calc_R_kdp_relationship` reports the precondition failure of the fit routine to
the caller (it returns the failure value; nothing crashes). -/
theorem empty_filter_reports_failure {R : Type} (oracle : List ℝ → List ℝ → R)
    (dsd : DropSizeDistribution) (kdp rr : List ℝ)
    (hk : dsd.Kdp = some kdp) (hr : dsd.rain_rate = some rr)
    (hkT : kdp.length = rr.length)
    (hnone : ∀ t, t < rr.length → ¬(0 < kdp.getD t 0 ∧ 0 < rr.getD t 0)) :
    dsd.calc_R_kdp_relationship oracle = Except.error FitError.emptyData := by
  rw [calc_R_kdp_char oracle dsd kdp rr hk hr hkT]
  have hnil : (List.range rr.length).filter
      (fun t => decide (0 < kdp.getD t 0 ∧ 0 < rr.getD t 0)) = [] := by
    rw [List.filter_eq_nil_iff]
    intro t htm
    simpa using hnone t (List.mem_range.mp htm)
  rw [hnil]
  rfl

/-- Concrete DSD whose positivity filter is empty (its `Kdp` is the zero
series produced by `__init__`). -/
noncomputable def dsdC6 : DropSizeDistribution :=
  DropSizeDistribution.init [0] [[1]] [1] (some [1]) none none none
    (some [0.5, 1.5]) (some [1])

theorem empty_filter_reports_failure_witness :
    dsdC6.Kdp = some [0] ∧ dsdC6.rain_rate = some [1] ∧
      ([0] : List ℝ).length = ([1] : List ℝ).length ∧
      (∀ t, t < ([1] : List ℝ).length →
        ¬(0 < ([0] : List ℝ).getD t 0 ∧ 0 < ([1] : List ℝ).getD t 0)) ∧
      dsdC6.calc_R_kdp_relationship (fun x _ => x.length) =
        Except.error FitError.emptyData :=
  ⟨rfl, rfl, rfl, by simp [Nat.lt_one_iff],
    empty_filter_reports_failure (fun x _ => x.length) dsdC6 [0] [1] rfl rfl rfl
      (by simp [Nat.lt_one_iff])⟩

/-- The three moment names accepted by `calc_rainfall_relationship`. -/
inductive RadarMoment where
  | reflectivity
  | differential_reflectivity
  | specific_differential_phase
deriving DecidableEq

/-- `__idb` (lines 221–222): converts a logarithmic quantity back to linear
scale, `10^(0.1*db)`. -/
noncomputable def idb (db : ℝ) : ℝ := (10 : ℝ) ^ (0.1 * db)

/-- The model function `fit_func` of the 3-moment branch (lines 211–212):
`a * idb(x1)^b * idb(x2)^c * x3^d`. -/
noncomputable def fit_func (x1 x2 x3 a b c d : ℝ) : ℝ :=
  a * (idb x1 ^ b * idb x2 ^ c) * x3 ^ d

/-- Observable outcome of `calc_rainfall_relationship`.  `curve_fit` is an
external deterministic regression routine and the model function passed to it
is always the fixed closure `fit_func`, so the `fitCall` constructor records
the remaining arguments of the call — the three filtered abscissa arrays and
the target vector — which determine the returned `(popt, pcov)`.  The other
constructors are the paths that print a message and return `None` without
fitting (`noRainRate`, `noRadarVars`, `noMoments`, `notImplementedMsg`) or
return `None` with no message at all (`silentNone`). -/
inductive RROutcome where
  | noRainRate
  | noRadarVars
  | noMoments
  | fitCall (x1f x2f x3f ydata : List ℝ)
  | notImplementedMsg
  | silentNone

/-- `calc_rainfall_relationship` (lines 170–219).  After the three `None`
checks it builds `filt = np.logical_and(self.Kdp > 0, self.rain_rate > 0)`,
sets `x1`, `x2`, `x3` to `Zh`, `Zdr`, `Kdp` respectively when the matching
moment name is selected and to `np.ones(len(Zh))` otherwise, then: with
exactly 3 selected moments it calls
`curve_fit(fit_func, (x1[filt], x2[filt], x3[filt]), (1, 1, 1, 1))` and
returns its result; with fewer than 3 it prints the not-implemented message and returns `None`; otherwise it returns `None` silently. -/
noncomputable def DropSizeDistribution.calc_rainfall_relationship
    (dsd : DropSizeDistribution) (moments : Option (List RadarMoment)) :
    RROutcome :=
  match dsd.rain_rate with
  | none => RROutcome.noRainRate
  | some rr =>
    match dsd.Zh with
    | none => RROutcome.noRadarVars
    | some zh =>
      match moments with
      | none => RROutcome.noMoments
      | some ms =>
        let kdp := dsd.Kdp.getD []
        let filt := npLogicalAnd (npGt kdp 0) (npGt rr 0)
        let lzh := zh.length
        let x1 := if RadarMoment.reflectivity ∈ ms then zh
          else List.replicate lzh 1
        let x2 := if RadarMoment.differential_reflectivity ∈ ms then dsd.Zdr.getD []
          else List.replicate lzh 1
        let x3 := if RadarMoment.specific_differential_phase ∈ ms then kdp
          else List.replicate lzh 1
        if ms.length = 3 then
          RROutcome.fitCall (boolMask filt x1) (boolMask filt x2)
            (boolMask filt x3) [1, 1, 1, 1]
        else if ms.length < 3 then RROutcome.notImplementedMsg
        else RROutcome.silentNone

/-- Two rain-rate series with the same length and the same positivity pattern
produce the same `> 0` mask. -/
theorem npGt_congr (rr1 rr2 : List ℝ) (hlen : rr1.length = rr2.length)
    (hsign : ∀ t, t < rr1.length → (0 < rr1.getD t 0 ↔ 0 < rr2.getD t 0)) :
    npGt rr1 0 = npGt rr2 0 := by
  apply List.ext_getElem (by simp [npGt_length, hlen])
  intro i h1 h2
  simp only [npGt, List.getElem_map]
  have hi1 : i < rr1.length := by simpa [npGt_length] using h1
  have hi2 : i < rr2.length := by simpa [npGt_length] using h2
  have hiff := hsign i hi1
  rw [getD_of_lt _ _ hi1, getD_of_lt _ _ hi2] at hiff
  by_cases hp : 0 < rr1[i]
  · simp [hp, hiff.mp hp]
  · have hp2 : ¬ 0 < rr2[i] := fun h => hp (hiff.mpr h)
    simp [hp, hp2]

/-- C3: in the 3-moment case the nonlinear least-squares fit is performed
against the constant target vector `(1, 1, 1, 1)` rather than the filtered
rain-rate series, and consequently the outcome — hence the parameters
returned by the deterministic regression routine — depends on the rain-rate
values only through the positivity filter: replacing `rain_rate` by any
series with the same length and the same positivity pattern leaves the call
unchanged. -/
theorem rainfall_fit_constant_target (dsd : DropSizeDistribution)
    (rr1 rr2 zh : List ℝ) (ms : List RadarMoment)
    (hr1 : dsd.rain_rate = some rr1) (hz : dsd.Zh = some zh)
    (hlen : rr1.length = rr2.length)
    (hsign : ∀ t, t < rr1.length → (0 < rr1.getD t 0 ↔ 0 < rr2.getD t 0))
    (h3 : ms.length = 3) :
    dsd.calc_rainfall_relationship (some ms) =
      ({ dsd with rain_rate := some rr2 } :
        DropSizeDistribution).calc_rainfall_relationship (some ms) ∧
    ∃ a b c : List ℝ, dsd.calc_rainfall_relationship (some ms) =
      RROutcome.fitCall a b c [1, 1, 1, 1] := by
  have hmask : npGt rr1 0 = npGt rr2 0 := npGt_congr rr1 rr2 hlen hsign
  constructor
  · simp only [DropSizeDistribution.calc_rainfall_relationship, hr1, hz]
    rw [hmask]
  · simp only [DropSizeDistribution.calc_rainfall_relationship, hr1, hz]
    exact ⟨_, _, _, if_pos h3⟩

/-- DSD instantiating the constant-target property of the 3-moment fit. -/
noncomputable def dsdC3 : DropSizeDistribution :=
  DropSizeDistribution.init [0] [[1]] [1] (some [1]) none none none
    (some [0.5, 1.5]) (some [1])

theorem rainfall_fit_constant_target_witness :
    dsdC3.rain_rate = some [1] ∧ dsdC3.Zh = some [0] ∧
      ([1] : List ℝ).length = ([2] : List ℝ).length ∧
      (∀ t, t < ([1] : List ℝ).length →
        (0 < ([1] : List ℝ).getD t 0 ↔ 0 < ([2] : List ℝ).getD t 0)) ∧
      ([RadarMoment.reflectivity, RadarMoment.differential_reflectivity,
        RadarMoment.specific_differential_phase].length = 3) ∧
      (dsdC3.calc_rainfall_relationship
          (some [RadarMoment.reflectivity, RadarMoment.differential_reflectivity,
            RadarMoment.specific_differential_phase]) =
        ({ dsdC3 with rain_rate := some [2] } :
          DropSizeDistribution).calc_rainfall_relationship
          (some [RadarMoment.reflectivity, RadarMoment.differential_reflectivity,
            RadarMoment.specific_differential_phase]) ∧
      ∃ a b c : List ℝ,
        dsdC3.calc_rainfall_relationship
          (some [RadarMoment.reflectivity, RadarMoment.differential_reflectivity,
            RadarMoment.specific_differential_phase]) =
          RROutcome.fitCall a b c [1, 1, 1, 1]) :=
  ⟨rfl, rfl, rfl, by simp [Nat.lt_one_iff, zero_lt_one, zero_lt_two], rfl,
    rainfall_fit_constant_target dsdC3 [1] [2] [0]
      [RadarMoment.reflectivity, RadarMoment.differential_reflectivity,
        RadarMoment.specific_differential_phase] rfl rfl rfl
      (by simp [Nat.lt_one_iff, zero_lt_one, zero_lt_two]) rfl⟩

/-- C10: for every moments selection that reaches a fit (exactly 3 entries),
the data entering the fit are filtered by `Kdp[t] > 0 AND rain_rate[t] > 0`,
even when `specific_differential_phase` is not among the selected moments:
each abscissa array handed to `curve_fit` is the corresponding series
(`Zh`/`Zdr`/`Kdp` when selected, the all-ones array otherwise) sampled at
exactly the indices `{t < T : Kdp[t] > 0 ∧ rain_rate[t] > 0}`, so timesteps
with `Kdp ≤ 0` are excluded regardless of which moments are fitted. -/
theorem fit_filter_includes_kdp_always (dsd : DropSizeDistribution)
    (rr zh zdr kdp : List ℝ) (ms : List RadarMoment)
    (hr : dsd.rain_rate = some rr) (hz : dsd.Zh = some zh)
    (hzdr : dsd.Zdr = some zdr) (hk : dsd.Kdp = some kdp)
    (h3 : ms.length = 3)
    (hkT : kdp.length = rr.length) (hzT : zh.length = rr.length)
    (hzdrT : zdr.length = rr.length) :
    dsd.calc_rainfall_relationship (some ms) =
      RROutcome.fitCall
        (((List.range rr.length).filter
            (fun t => decide (0 < kdp.getD t 0 ∧ 0 < rr.getD t 0))).map
          (fun t => (if RadarMoment.reflectivity ∈ ms then zh
            else List.replicate zh.length 1).getD t 0))
        (((List.range rr.length).filter
            (fun t => decide (0 < kdp.getD t 0 ∧ 0 < rr.getD t 0))).map
          (fun t => (if RadarMoment.differential_reflectivity ∈ ms then zdr
            else List.replicate zh.length 1).getD t 0))
        (((List.range rr.length).filter
            (fun t => decide (0 < kdp.getD t 0 ∧ 0 < rr.getD t 0))).map
          (fun t => (if RadarMoment.specific_differential_phase ∈ ms then kdp
            else List.replicate zh.length 1).getD t 0))
        [1, 1, 1, 1] := by
  simp only [DropSizeDistribution.calc_rainfall_relationship, hr, hz, hzdr, hk,
    Option.getD_some]
  rw [if_pos h3]
  have hflen : (npLogicalAnd (npGt kdp 0) (npGt rr 0)).length = rr.length :=
    filt_length kdp rr hkT
  have hx1len : (if RadarMoment.reflectivity ∈ ms then zh
      else List.replicate zh.length 1).length = rr.length := by
    by_cases hm : RadarMoment.reflectivity ∈ ms <;> simp [hm, hzT]
  have hx2len : (if RadarMoment.differential_reflectivity ∈ ms then zdr
      else List.replicate zh.length 1).length = rr.length := by
    by_cases hm : RadarMoment.differential_reflectivity ∈ ms <;> simp [hm, hzT, hzdrT]
  have hx3len : (if RadarMoment.specific_differential_phase ∈ ms then kdp
      else List.replicate zh.length 1).length = rr.length := by
    by_cases hm : RadarMoment.specific_differential_phase ∈ ms <;> simp [hm, hzT, hkT]
  have hfilter : ∀ xlen : ℕ, xlen = rr.length →
      (List.range xlen).filter
        (fun t => (npLogicalAnd (npGt kdp 0) (npGt rr 0)).getD t false) =
      (List.range rr.length).filter
        (fun t => decide (0 < kdp.getD t 0 ∧ 0 < rr.getD t 0)) := by
    intro xlen hxl
    subst hxl
    apply List.filter_congr
    intro t htm
    have htr : t < rr.length := List.mem_range.mp htm
    exact filt_getD kdp rr (by rw [hkT]; exact htr) htr
  rw [boolMask_eq_range_filter _ _ (by rw [hflen, hx1len]),
    boolMask_eq_range_filter _ _ (by rw [hflen, hx2len]),
    boolMask_eq_range_filter _ _ (by rw [hflen, hx3len]),
    hx1len, hx2len, hx3len, hfilter rr.length rfl]

/-- DSD instantiating the universal Kdp/rain-rate filter, with a 3-entry
moments list that does not contain `specific_differential_phase`. -/
noncomputable def dsdC10 : DropSizeDistribution :=
  DropSizeDistribution.init [0] [[1]] [1] (some [1]) none none none
    (some [0.5, 1.5]) (some [1])

theorem fit_filter_includes_kdp_always_witness :
    dsdC10.rain_rate = some [1] ∧ dsdC10.Zh = some [0] ∧ dsdC10.Zdr = some [0] ∧
      dsdC10.Kdp = some [0] ∧
      ([RadarMoment.reflectivity, RadarMoment.reflectivity,
        RadarMoment.reflectivity].length = 3) ∧
      ([0] : List ℝ).length = ([1] : List ℝ).length ∧
      ([0] : List ℝ).length = ([1] : List ℝ).length ∧
      ([0] : List ℝ).length = ([1] : List ℝ).length ∧
      dsdC10.calc_rainfall_relationship
          (some [RadarMoment.reflectivity, RadarMoment.reflectivity,
            RadarMoment.reflectivity]) =
        RROutcome.fitCall
          (((List.range ([1] : List ℝ).length).filter
              (fun t => decide (0 < ([0] : List ℝ).getD t 0 ∧
                0 < ([1] : List ℝ).getD t 0))).map
            (fun t => (if RadarMoment.reflectivity ∈
                [RadarMoment.reflectivity, RadarMoment.reflectivity,
                  RadarMoment.reflectivity] then ([0] : List ℝ)
              else List.replicate ([0] : List ℝ).length 1).getD t 0))
          (((List.range ([1] : List ℝ).length).filter
              (fun t => decide (0 < ([0] : List ℝ).getD t 0 ∧
                0 < ([1] : List ℝ).getD t 0))).map
            (fun t => (if RadarMoment.differential_reflectivity ∈
                [RadarMoment.reflectivity, RadarMoment.reflectivity,
                  RadarMoment.reflectivity] then ([0] : List ℝ)
              else List.replicate ([0] : List ℝ).length 1).getD t 0))
          (((List.range ([1] : List ℝ).length).filter
              (fun t => decide (0 < ([0] : List ℝ).getD t 0 ∧
                0 < ([1] : List ℝ).getD t 0))).map
            (fun t => (if RadarMoment.specific_differential_phase ∈
                [RadarMoment.reflectivity, RadarMoment.reflectivity,
                  RadarMoment.reflectivity] then ([0] : List ℝ)
              else List.replicate ([0] : List ℝ).length 1).getD t 0))
          [1, 1, 1, 1] :=
  ⟨rfl, rfl, rfl, rfl, rfl, rfl, rfl, rfl,
    fit_filter_includes_kdp_always dsdC10 [1] [0] [0] [0]
      [RadarMoment.reflectivity, RadarMoment.reflectivity,
        RadarMoment.reflectivity] rfl rfl rfl rfl rfl rfl rfl rfl⟩

/-- DSD with rain rate and radar parameters present, used for the
moment-arity behaviour. -/
noncomputable def dsdC4 : DropSizeDistribution :=
  DropSizeDistribution.init [0] [[1]] [1] (some [1]) none none none
    (some [0.5, 1.5]) (some [1])

/-- C4 counterexample: with a 1-moment selection, `calc_rainfall_relationship`
does not perform a fit and does not return optimal parameters — it takes the
`len(moments) < 3` path, printing the not-implemented message and returning
`None`. -/
theorem one_moment_selection_not_fitted :
    dsdC4.calc_rainfall_relationship (some [RadarMoment.reflectivity]) =
      RROutcome.notImplementedMsg := rfl

/-- C4 amended: only a selection of exactly 3 moments triggers a fit,
returning the fit parameters and covariance of the optimizer; every selection of fewer
than 3 moments — the 1-moment case just as the 2-moment case — is reported
via the printed not-implemented message with no fit attempted, and a
selection of more than 3 returns `None` silently. -/
theorem rainfall_fit_arity (dsd : DropSizeDistribution) (rr zh : List ℝ)
    (ms : List RadarMoment)
    (hr : dsd.rain_rate = some rr) (hz : dsd.Zh = some zh) :
    (ms.length < 3 → dsd.calc_rainfall_relationship (some ms) =
      RROutcome.notImplementedMsg) ∧
    (ms.length = 3 → ∃ a b c : List ℝ,
      dsd.calc_rainfall_relationship (some ms) =
        RROutcome.fitCall a b c [1, 1, 1, 1]) ∧
    (3 < ms.length → dsd.calc_rainfall_relationship (some ms) =
      RROutcome.silentNone) := by
  refine ⟨fun hlt => ?_, fun heq => ?_, fun hgt => ?_⟩
  · simp only [DropSizeDistribution.calc_rainfall_relationship, hr, hz]
    rw [if_neg (by omega), if_pos hlt]
  · simp only [DropSizeDistribution.calc_rainfall_relationship, hr, hz]
    exact ⟨_, _, _, if_pos heq⟩
  · simp only [DropSizeDistribution.calc_rainfall_relationship, hr, hz]
    rw [if_neg (by omega), if_neg (by omega)]

theorem rainfall_fit_arity_witness :
    dsdC4.rain_rate = some [1] ∧ dsdC4.Zh = some [0] ∧
      ((([RadarMoment.reflectivity] : List RadarMoment).length < 3 →
        dsdC4.calc_rainfall_relationship (some [RadarMoment.reflectivity]) =
          RROutcome.notImplementedMsg) ∧
      (([RadarMoment.reflectivity] : List RadarMoment).length = 3 →
        ∃ a b c : List ℝ,
          dsdC4.calc_rainfall_relationship (some [RadarMoment.reflectivity]) =
            RROutcome.fitCall a b c [1, 1, 1, 1]) ∧
      (3 < ([RadarMoment.reflectivity] : List RadarMoment).length →
        dsdC4.calc_rainfall_relationship (some [RadarMoment.reflectivity]) =
          RROutcome.silentNone)) :=
  ⟨rfl, rfl, rainfall_fit_arity dsdC4 [1] [0] [RadarMoment.reflectivity] rfl rfl⟩

/-- C8: the three precondition checks of `calc_rainfall_relationship` are
reported to the caller as explicit non-fitting outcomes and produce no
result: a missing `rain_rate` yields the no-rain-rate report, a missing `Zh`
(radar parameters) yields the no-radar-variables report, and a missing
moments selection yields the no-moments report; none of these constructors
carries a fit, so no partially-valid result is returned and nothing is
raised fatally. -/
theorem rainfall_preconditions_reported (dsd : DropSizeDistribution)
    (moments : Option (List RadarMoment)) :
    (dsd.rain_rate = none →
      dsd.calc_rainfall_relationship moments = RROutcome.noRainRate) ∧
    (∀ rr : List ℝ, dsd.rain_rate = some rr → dsd.Zh = none →
      dsd.calc_rainfall_relationship moments = RROutcome.noRadarVars) ∧
    (∀ (rr zh : List ℝ), dsd.rain_rate = some rr → dsd.Zh = some zh →
      moments = none →
      dsd.calc_rainfall_relationship moments = RROutcome.noMoments) := by
  refine ⟨fun h => ?_, fun rr hr hz => ?_, fun rr zh hr hz hm => ?_⟩
  · simp only [DropSizeDistribution.calc_rainfall_relationship, h]
  · simp only [DropSizeDistribution.calc_rainfall_relationship, hr, hz]
  · simp only [DropSizeDistribution.calc_rainfall_relationship, hr, hz, hm]

/-- State with `rain_rate` absent. -/
noncomputable def dsdC8a : DropSizeDistribution :=
  DropSizeDistribution.init [0] [[1]] [1] none none none none
    (some [0.5, 1.5]) (some [1])

/-- State with `rain_rate` present but `Zh` set to `None` (as after an
external assignment; `__init__` itself always fills it). -/
noncomputable def dsdC8b : DropSizeDistribution :=
  { DropSizeDistribution.init [0] [[1]] [1] (some [1]) none none none
      (some [0.5, 1.5]) (some [1]) with Zh := none }

/-- State with `rain_rate` and `Zh` present. -/
noncomputable def dsdC8c : DropSizeDistribution :=
  DropSizeDistribution.init [0] [[1]] [1] (some [1]) none none none
    (some [0.5, 1.5]) (some [1])

theorem rainfall_preconditions_reported_witness :
    dsdC8a.calc_rainfall_relationship (some [RadarMoment.reflectivity]) =
        RROutcome.noRainRate ∧
      dsdC8b.calc_rainfall_relationship (some [RadarMoment.reflectivity]) =
        RROutcome.noRadarVars ∧
      dsdC8c.calc_rainfall_relationship none = RROutcome.noMoments :=
  ⟨(rainfall_preconditions_reported dsdC8a (some [RadarMoment.reflectivity])).1 rfl,
    (rainfall_preconditions_reported dsdC8b
      (some [RadarMoment.reflectivity])).2.1 [1] rfl rfl,
    (rainfall_preconditions_reported dsdC8c none).2.2 [1] [0] rfl rfl rfl⟩
